import Mathlib

/-!
Verification of the spark command pipeline, the runtime spec builder, the
container runner construction and the request-config extraction of the
function-runtime-oci repository.

The repository holds two parallel generations of the code base: the
`xfn-oci` generation (packages `spark`, `start`, `run`, `container` keyed to
the crossplane RunFunctionRequest protocol) and the `function-runtime-oci`
generation (same package names, image supplied as a tarball, background
context).  Definitions for the first generation live in namespace `Xfn`,
definitions for the second in namespace `Fro`; shared machinery is at top
level.

Effectful steps (file reads, process control, registry pulls) are shallowly
embedded: a world record supplies the outcome of every fallible step in the
order the Go code performs them, and the `Run` function of each spark
command is translated as a pure function from the command flags and the
world to an `Outcome` recording the returned error, the bytes written to
stdout, how many times the bundle cleanup was invoked, which bundling
strategy was selected, and the context deadline under which the external
OCI runtime process was executed.
-/

/-- A byte stream (stdin, stdout, stderr contents) as a list of bytes. -/
abbrev Bytes := List Nat

/-- The two bundling strategies of the bundle store. -/
inductive BKind where
  | overlay
  | uncompressed
deriving DecidableEq, Repr

/-- Result of `cmd.Wait()` when it fails.  `exitError` models an error that
`errors.As` matches against `exec.ExitError`, i.e. the external OCI runtime
process exited with a non-zero status (or was killed); `other` models any
other wait failure. -/
inductive WaitErr where
  | exitError
  | other
deriving DecidableEq, Repr

/-- An OCI runtime bundle as returned by the bundle store: the run only
uses its path (and its cleanup capability, tracked by the world). -/
structure Bundle where
  path : String
deriving DecidableEq, Repr

/-- Models `io.ReadAll(limitReaderIfNonZero(r, limit))` applied to a stream
whose full contents are `data`: a zero limit reads the whole stream, a
non-zero limit reads at most the first `limit` bytes.  Reaching the limit
surfaces as end-of-file, not as an error, so the result is total. -/
def limitReaderIfNonZero (data : Bytes) (limit : Int) : Bytes :=
  if limit = 0 then data else data.take limit.toNat

/-- The bundler selection performed at the start of both spark runs:
`uncompressed.NewBundler` is the default, replaced by
`overlay.NewCachingBundler` when `overlay.Supported(cacheDir)` reports the
overlay filesystem usable at the cache directory; a failure of
`overlay.NewCachingBundler` aborts the run. -/
def selectBundler (supported : Bool) (newCachingBundler : Except Unit Unit) :
    Except Unit BKind :=
  if supported then
    match newCachingBundler with
    | .error e => .error e
    | .ok _ => .ok .overlay
  else
    .ok .uncompressed

deriving instance DecidableEq for Except

/-- True when an `Except` step succeeded. -/
def okB {ε α : Type} : Except ε α → Bool
  | .ok _ => true
  | .error _ => false

theorem okB_ok {ε α : Type} (x : Except ε α) (v : α) (h : x = .ok v) :
    okB x = true := by
  subst h; rfl

theorem okB_true_iff {ε α : Type} (x : Except ε α) :
    okB x = true ↔ ∃ v, x = .ok v := by
  cases x <;> simp [okB]

/-! ## Request configuration (generated protobuf types, nil-safe getters)

The protobuf getters of the generated `proto` package return the zero value
on nil receivers, so the nested message chain collapses to a flat record
whose fields default to the Go zero values. -/

/-- The `proto.NetworkPolicy` enum of the xfn-oci generation. -/
inductive NetworkPolicy where
  | unspecified
  | runner
  | isolated
deriving DecidableEq, Repr

/-- The fields of `proto.RunFunctionConfig` consumed by the code:
`GetTimeout().AsDuration()` in nanoseconds (0 when unset),
`GetResources().GetLimits().GetCpu()` and `...GetMemory()` ("" when unset),
and `GetNetwork().GetPolicy()` (unspecified when unset). -/
structure RunFunctionConfig where
  timeoutNs : Nat := 0
  cpuLimit : String := ""
  memoryLimit : String := ""
  networkPolicy : NetworkPolicy := .unspecified
deriving DecidableEq, Repr

/-- The fields of `proto.RunFunctionRequestConfigSpec` consumed by the
code: the image reference and the nested run-function config. -/
structure RunFunctionRequestConfigSpec where
  image : String := ""
  runFunctionConfig : RunFunctionConfig := {}
deriving DecidableEq, Repr

/-- `container.RunFunctionRequestConfig`: the typed configuration carried
in the Input field of a RunFunctionRequest. -/
structure RunFunctionRequestConfig where
  spec : RunFunctionRequestConfigSpec := {}
deriving DecidableEq, Repr

/-- The Go zero value of `RunFunctionRequestConfig` (`var cfg ...`). -/
def zeroRunFunctionRequestConfig : RunFunctionRequestConfig := {}

/-! ## Runtime spec builder -/

/-- The runtime spec fields the mutators touch.  The base spec produced by
the bundle store carries a private, unconfigured network namespace, so
`hostNetwork` defaults to false; CPU and memory controls are unset. -/
structure RSpec where
  hostNetwork : Bool := false
  cpuQuota : Option Nat := none
  memLimitBytes : Option Nat := none
deriving DecidableEq, Repr

/-- Stage tags of spec mutator failures. -/
inductive SpecErr where
  | cpuLimit
  | memoryLimit
  | hostNetwork
deriving DecidableEq, Repr

/-- Modelled from the spec: `spec.WithCPULimit(quantity)` parses a
Kubernetes-style CPU quantity into a runtime-native quota and fails on
malformed input.  The quantity grammar lives outside the shown sources, so
the parse is abstracted as a parameter returning `none` on malformed
input. -/
def WithCPULimit (parse : String → Option Nat) (l : String) (s : RSpec) :
    Except SpecErr RSpec :=
  match parse l with
  | none => .error .cpuLimit
  | some q => .ok { s with cpuQuota := some q }

/-- Modelled from the spec: `spec.WithMemoryLimit(quantity)` parses a byte
quantity into an absolute byte ceiling and fails on malformed input; the
parse is abstracted as a parameter. -/
def WithMemoryLimit (parse : String → Option Nat) (l : String) (s : RSpec) :
    Except SpecErr RSpec :=
  match parse l with
  | none => .error .memoryLimit
  | some q => .ok { s with memLimitBytes := some q }

/-- Modelled from the spec: `spec.WithHostNetwork()` omits network
namespace isolation so the container shares the launcher network. -/
def WithHostNetwork (s : RSpec) : Except SpecErr RSpec :=
  .ok { s with hostNetwork := true }

namespace Xfn

/-- `spark.FromRunFunctionConfig` (xfn-oci): applies the CPU limit, the
memory limit, and — exactly when the configured policy is Runner — the
host-network mutator to the supplied spec. -/
def FromRunFunctionConfig (parseCPU parseMem : String → Option Nat)
    (cfg : RunFunctionConfig) (s : RSpec) : Except SpecErr RSpec :=
  match (if cfg.cpuLimit = "" then Except.ok s
         else WithCPULimit parseCPU cfg.cpuLimit s) with
  | .error e => .error e
  | .ok s1 =>
    match (if cfg.memoryLimit = "" then Except.ok s1
           else WithMemoryLimit parseMem cfg.memoryLimit s1) with
    | .error e => .error e
    | .ok s2 =>
      match (if cfg.networkPolicy = NetworkPolicy.runner then WithHostNetwork s2
             else Except.ok s2) with
      | .error e => .error e
      | .ok s3 => .ok s3

end Xfn

namespace Fro

/-- `config.NetworkPolicyRunner` of the function-runtime-oci generation. -/
def NetworkPolicyRunner : String := "Runner"

/-- `config.NetworkPolicyIsolated`, the default. -/
def NetworkPolicyIsolated : String := "Isolated"

/-- `config.ResourcesConfig` of the function-runtime-oci generation. -/
structure ResourcesConfig where
  memoryLimit : String := ""
  cpuLimit : String := ""
  networkPolicy : String := NetworkPolicyIsolated
deriving DecidableEq, Repr

/-- `spark.FromResourcesConfig` (function-runtime-oci): a nil config leaves
the spec untouched; otherwise the CPU limit, the memory limit, and — exactly
when the policy string equals Runner — the host-network mutator apply. -/
def FromResourcesConfig (parseCPU parseMem : String → Option Nat)
    (cfg : Option ResourcesConfig) (s : RSpec) : Except SpecErr RSpec :=
  match cfg with
  | none => .ok s
  | some cfg =>
    match (if cfg.cpuLimit = "" then Except.ok s
           else WithCPULimit parseCPU cfg.cpuLimit s) with
    | .error e => .error e
    | .ok s1 =>
      match (if cfg.memoryLimit = "" then Except.ok s1
             else WithMemoryLimit parseMem cfg.memoryLimit s1) with
      | .error e => .error e
      | .ok s2 =>
        match (if cfg.networkPolicy = NetworkPolicyRunner then WithHostNetwork s2
               else Except.ok s2) with
        | .error e => .error e
        | .ok s3 => .ok s3

end Fro

/-! ## Container runner construction and request-config extraction -/

namespace Xfn

/-- `container.Runner` (xfn-oci): the fields set by the functional options.
Go zero values; `NewContainerRunner` overrides the cache default. -/
structure Runner where
  rootUID : Int := 0
  rootGID : Int := 0
  setuid : Bool := false
  cache : String := ""
  registry : String := ""
  defaultImage : Option String := none
deriving DecidableEq, Repr

/-- `container.defaultCacheDir`. -/
def defaultCacheDir : String := "/xfn"

/-- A `container.RunnerOption`. -/
abbrev RunnerOption := Runner → Runner

/-- `container.MapToRoot`: which UID and GID map to root in the function
user namespace. -/
def MapToRoot (uid gid : Int) : RunnerOption :=
  fun r => { r with rootUID := uid, rootGID := gid }

/-- `container.SetUID`: whether operations requiring CAP_SETUID and
CAP_SETGID should be attempted. -/
def SetUID (s : Bool) : RunnerOption :=
  fun r => { r with setuid := s }

/-- `container.WithCacheDir`. -/
def WithCacheDir (d : String) : RunnerOption :=
  fun r => { r with cache := d }

/-- `container.WithRegistry`. -/
def WithRegistry (dr : String) : RunnerOption :=
  fun r => { r with registry := dr }

/-- `container.WithDefaultImage`: an empty image leaves the runner
unchanged. -/
def WithDefaultImage (image : String) : RunnerOption :=
  fun r => if image = "" then r else { r with defaultImage := some image }

/-- `container.NewContainerRunner`: starts from the cache default and
applies the options in order. -/
def NewContainerRunner (o : List RunnerOption) : Runner :=
  o.foldl (fun r fn => fn r) { cache := defaultCacheDir }

/-- `container.RunFunctionRequest` restricted to the field the extraction
reads: the optional Input object (its serializable content is opaque). -/
structure RunFunctionRequest where
  input : Option Bytes := none
deriving DecidableEq, Repr

/-- Stage tags of `ConfigFromRequest` failures. -/
inductive CfgErr where
  | marshalRequestInput
  | unmarshalConfig
deriving DecidableEq, Repr

/-- `container.ConfigFromRequest`: a nil Input yields a pointer to the zero
config and no error; otherwise the Input is marshalled to JSON and decoded
into the config, each step fallible.  The Go pair `(*Config, error)` is
`Except CfgErr (Option RunFunctionRequestConfig)`, with the option tracking
pointer nilness; the JSON codecs live outside the shown sources and are
abstracted as parameters. -/
def ConfigFromRequest (marshalInput : Bytes → Except Unit Bytes)
    (unmarshalCfg : Bytes → Except Unit RunFunctionRequestConfig)
    (req : RunFunctionRequest) :
    Except CfgErr (Option RunFunctionRequestConfig) :=
  match req.input with
  | none => .ok (some zeroRunFunctionRequestConfig)
  | some input =>
    match marshalInput input with
    | .error _ => .error .marshalRequestInput
    | .ok inputJSON =>
      match unmarshalCfg inputJSON with
      | .error _ => .error .unmarshalConfig
      | .ok cfg => .ok (some cfg)

/-- The ambient process state the start and run commands inspect before
building a runner: the capability probes `container.HasCapSetUID` and
`container.HasCapSetGID` (defined in a platform source outside the shown
files) and the results of `os.Getuid()` and `os.Getgid()`. -/
structure CapsEnv where
  hasCapSetUID : Bool := false
  hasCapSetGID : Bool := false
  osUID : Int := 0
  osGID : Int := 0
deriving DecidableEq, Repr

/-- Flags of `start.Command` (xfn-oci) read by its Run method. -/
structure StartCommand where
  cacheDir : String := "/xfn"
  mapRootUID : Int := 100000
  mapRootGID : Int := 100000
deriving DecidableEq, Repr

/-- The runner built by `start.Command.Run` (xfn-oci): the configured root
UID and GID are used exactly when both capabilities are held, otherwise the
processes own UID and GID; the logger option is omitted as the model does
not track logging.  `filepath.Clean` is applied to the cache directory in
the source and abstracted as a parameter here. -/
def startRunner (c : StartCommand) (registry defaultImage : String)
    (clean : String → String) (env : CapsEnv) : Runner :=
  let setuid := env.hasCapSetUID && env.hasCapSetGID
  let rootUID := if setuid then c.mapRootUID else env.osUID
  let rootGID := if setuid then c.mapRootGID else env.osGID
  NewContainerRunner
    [SetUID setuid, MapToRoot rootUID rootGID, WithCacheDir (clean c.cacheDir),
     WithRegistry registry, WithDefaultImage defaultImage]

/-- Flags of `run.Command` (xfn-oci) read when building its runner. -/
structure RunCommand where
  cacheDir : String := "/xfn"
  mapRootUID : Int := 100000
  mapRootGID : Int := 100000
deriving DecidableEq, Repr

/-- The runner built by `run.Command.Run` (xfn-oci), with the same
capability-gated UID and GID selection as the start command. -/
def runCmdRunner (c : RunCommand) (registry : String)
    (clean : String → String) (env : CapsEnv) : Runner :=
  let setuid := env.hasCapSetUID && env.hasCapSetGID
  let rootUID := if setuid then c.mapRootUID else env.osUID
  let rootGID := if setuid then c.mapRootGID else env.osGID
  NewContainerRunner
    [SetUID setuid, MapToRoot rootUID rootGID, WithCacheDir (clean c.cacheDir),
     WithRegistry registry]

end Xfn

namespace Fro

/-- `container.Runner` (function-runtime-oci): fields set by the options.
`WithImageTarBall` is referenced by the commands but defined outside the
shown sources; modelled from the spec as recording the tarball path. -/
structure Runner where
  rootUID : Int := 0
  rootGID : Int := 0
  setuid : Bool := false
  cache : String := ""
  registry : String := ""
  imageTarBall : String := ""
deriving DecidableEq, Repr

/-- `container.defaultCacheDir` (function-runtime-oci). -/
def defaultCacheDir : String := "/function-runtime-oci"

/-- A `container.RunnerOption` (function-runtime-oci). -/
abbrev RunnerOption := Runner → Runner

/-- `container.MapToRoot` (function-runtime-oci). -/
def MapToRoot (uid gid : Int) : RunnerOption :=
  fun r => { r with rootUID := uid, rootGID := gid }

/-- `container.SetUID` (function-runtime-oci). -/
def SetUID (s : Bool) : RunnerOption :=
  fun r => { r with setuid := s }

/-- Modelled from the spec: `container.WithImageTarBall` records the image
tarball the runner serves; its definition is outside the shown sources. -/
def WithImageTarBall (p : String) : RunnerOption :=
  fun r => { r with imageTarBall := p }

/-- `container.NewRunner` (function-runtime-oci). -/
def NewRunner (o : List RunnerOption) : Runner :=
  o.foldl (fun r fn => fn r) { cache := defaultCacheDir }

/-- Flags of `start.Command` (function-runtime-oci) read by its Run
method. -/
structure StartCommand where
  cacheDir : String := "/function-runtime-oci-cache"
  mapRootUID : Int := 100000
  mapRootGID : Int := 100000
deriving DecidableEq, Repr

/-- The runner built by `start.Command.Run` (function-runtime-oci) once the
image tarball has been decompressed to `tarballPath`: the same
capability-gated UID and GID selection, with the logger option omitted. -/
def startRunner (c : StartCommand) (tarballPath : String)
    (env : Xfn.CapsEnv) : Runner :=
  let setuid := env.hasCapSetUID && env.hasCapSetGID
  let rootUID := if setuid then c.mapRootUID else env.osUID
  let rootGID := if setuid then c.mapRootGID else env.osGID
  NewRunner [SetUID setuid, MapToRoot rootUID rootGID, WithImageTarBall tarballPath]

end Fro

/-! ## The spark pipelines -/

/-- What a spark run does that is visible to its caller: the error it
returns (`none` on success), the bytes it writes to its own stdout, the
number of times it invoked the bundle Cleanup, the bundling strategy it
selected (once selection succeeded), and — once `exec.CommandContext` has
been constructed — the deadline of the context the external OCI runtime
process runs under (`some none` for a context without deadline). -/
structure Outcome (ε : Type) where
  ret : Option ε
  written : Bytes
  cleanupCount : Nat
  bundler : Option BKind
  procDeadline : Option (Option Nat)
deriving DecidableEq, Repr

/-- `spark.defaultTimeout` (xfn-oci): 25 seconds in nanoseconds, used when
the request carries no timeout. -/
def defaultTimeout : Nat := 25 * 1000000000

/-- The deadline computation of the xfn-oci spark run: the timeout from the
run-function config, replaced by the default when zero. -/
def effectiveTimeout (t : Nat) : Nat :=
  if t = 0 then defaultTimeout else t

namespace Xfn

/-- Flags of `spark.Command` (xfn-oci). -/
structure SparkCommand where
  cacheDir : String := "/xfn"
  runtimeBin : String := "crun"
  maxStdioBytes : Int := 0
  caBundlePath : String := ""
deriving DecidableEq, Repr

/-- Error labels of `spark.Command.Run` (xfn-oci), one per wrap site; the
runtime label carries the captured stderr exactly when the wrapped error
matched `exec.ExitError` (then `exitErr.Stderr = stderr` is set). -/
inductive SparkErr where
  | readRequest
  | unmarshalRequest
  | noInput
  | marshalInput
  | unmarshalConfig
  | newBundleStore
  | newDigestStore
  | parseRef
  | parseCABundle
  | pull
  | bundleFn
  | mkRuntimeRootdir
  | marshalRequestJSON
  | runtimeErr : Option Bytes → SparkErr
  | cleanupBundle
  | writeResponse
deriving DecidableEq, Repr

/-- One run-sized slice of the outside world for the xfn-oci spark run: the
result of every fallible step, in the order the code performs them, plus
the payloads the external process produced and whether the run deadline
expired while the process ran. -/
structure World where
  readStdin : Except Unit Bytes
  unmarshalReq : Except Unit RunFunctionRequest
  marshalInput : Except Unit Bytes
  unmarshalConf : Except Unit RunFunctionRequestConfig
  overlaySupported : Bool
  newCachingBundler : Except Unit Unit
  newDigest : Except Unit Unit
  parseRef : Except Unit Unit
  parseCA : Except Unit Unit
  pull : Except Unit Unit
  bundle : Except Unit Bundle
  mkdirAll : Except Unit Unit
  marshalReq : Except Unit Bytes
  stdoutPipe : Except Unit Unit
  stderrPipe : Except Unit Unit
  startCmd : Except Unit Unit
  deadlineExpired : Bool
  procStdout : Bytes
  procStderr : Bytes
  readStdout : Except Unit Unit
  readStderr : Except Unit Unit
  waitResult : Except WaitErr Unit
  cleanup : Except Unit Unit
  writeStdout : Except Unit Unit
deriving DecidableEq, Repr

/-- `spark.Command.Run` (xfn-oci) as a function of the command flags and
the world.  Every branch mirrors a return site of the source; cleanup calls
are counted whether or not their result is consulted.  The process is
started by `exec.CommandContext` under the run context, whose deadline is
the request timeout or the default: when that deadline expires the Go
runtime kills the process and `cmd.Wait` reports an `exec.ExitError`, which
the model forces via `deadlineExpired`. -/
def sparkRun (registry defaultImage : String) (c : SparkCommand) (w : World) :
    Outcome SparkErr :=
  match w.readStdin with
  | .error _ => ⟨some .readRequest, [], 0, none, none⟩
  | .ok _pb =>
  match w.unmarshalReq with
  | .error _ => ⟨some .unmarshalRequest, [], 0, none, none⟩
  | .ok req =>
  match req.input with
  | none => ⟨some .noInput, [], 0, none, none⟩
  | some _input =>
  match w.marshalInput with
  | .error _ => ⟨some .marshalInput, [], 0, none, none⟩
  | .ok _confJSON =>
  match w.unmarshalConf with
  | .error _ => ⟨some .unmarshalConfig, [], 0, none, none⟩
  | .ok conf =>
  let t := effectiveTimeout conf.spec.runFunctionConfig.timeoutNs
  match selectBundler w.overlaySupported w.newCachingBundler with
  | .error _ => ⟨some .newBundleStore, [], 0, none, none⟩
  | .ok bk =>
  match w.newDigest with
  | .error _ => ⟨some .newDigestStore, [], 0, some bk, none⟩
  | .ok _ =>
  let _img := if conf.spec.image = "" then defaultImage else conf.spec.image
  let _refArgs := (_img, registry)
  match w.parseRef with
  | .error _ => ⟨some .parseRef, [], 0, some bk, none⟩
  | .ok _ =>
  match (if c.caBundlePath = "" then Except.ok () else w.parseCA) with
  | .error _ => ⟨some .parseCABundle, [], 0, some bk, none⟩
  | .ok _ =>
  match w.pull with
  | .error _ => ⟨some .pull, [], 0, some bk, none⟩
  | .ok _image =>
  match w.bundle with
  | .error _ => ⟨some .bundleFn, [], 0, some bk, none⟩
  | .ok _b =>
  match w.mkdirAll with
  | .error _ => ⟨some .mkRuntimeRootdir, [], 1, some bk, none⟩
  | .ok _ =>
  let dl : Option (Option Nat) := some (some t)
  match w.marshalReq with
  | .error _ => ⟨some .marshalRequestJSON, [], 1, some bk, dl⟩
  | .ok _reqJSON =>
  match w.stdoutPipe with
  | .error _ => ⟨some (.runtimeErr none), [], 1, some bk, dl⟩
  | .ok _ =>
  match w.stderrPipe with
  | .error _ => ⟨some (.runtimeErr none), [], 1, some bk, dl⟩
  | .ok _ =>
  match w.startCmd with
  | .error _ => ⟨some (.runtimeErr none), [], 1, some bk, dl⟩
  | .ok _ =>
  match w.readStdout with
  | .error _ => ⟨some (.runtimeErr none), [], 1, some bk, dl⟩
  | .ok _ =>
  let stdout := limitReaderIfNonZero w.procStdout c.maxStdioBytes
  match w.readStderr with
  | .error _ => ⟨some (.runtimeErr none), [], 1, some bk, dl⟩
  | .ok _ =>
  let stderr := limitReaderIfNonZero w.procStderr c.maxStdioBytes
  match w.deadlineExpired, w.waitResult with
  | true, _ => ⟨some (.runtimeErr (some stderr)), [], 1, some bk, dl⟩
  | false, .error WaitErr.exitError => ⟨some (.runtimeErr (some stderr)), [], 1, some bk, dl⟩
  | false, .error WaitErr.other => ⟨some (.runtimeErr none), [], 1, some bk, dl⟩
  | false, .ok _ =>
  match w.cleanup with
  | .error _ => ⟨some .cleanupBundle, [], 1, some bk, dl⟩
  | .ok _ =>
  match w.writeStdout with
  | .error _ => ⟨some .writeResponse, [], 1, some bk, dl⟩
  | .ok _ => ⟨none, stdout, 1, some bk, dl⟩

end Xfn

namespace Fro

/-- Flags of `spark.Command` (function-runtime-oci). -/
structure SparkCommand where
  cacheDir : String := "/function-runtime-oci-cache"
  runtimeBin : String := "crun"
  maxStdioBytes : Int := 0
  resources : ResourcesConfig := {}
deriving DecidableEq, Repr

/-- Error labels of `spark.Command.Run` (function-runtime-oci), one per
wrap site; the wait label carries the captured stderr exactly when the
wait error matched `exec.ExitError` (then the message embeds the stderr
string). -/
inductive SparkErr where
  | readRequest
  | unmarshalRequest
  | newBundleStore
  | openTarBall
  | bundleFn
  | mkRuntimeRootdir
  | marshalRequest
  | stdoutPipe
  | stderrPipe
  | startCmd
  | readStdout
  | readStderr
  | waitCmd : Option Bytes → SparkErr
  | cleanupBundle
  | writeResponse
deriving DecidableEq, Repr

/-- One run-sized slice of the outside world for the function-runtime-oci
spark run.  There is no deadline flag: the run executes the external
process under `context.Background()`, which never expires. -/
structure World where
  readStdin : Except Unit Bytes
  unmarshalReq : Except Unit Unit
  overlaySupported : Bool
  newCachingBundler : Except Unit Unit
  openTarball : Except Unit Unit
  bundle : Except Unit Bundle
  mkdirAll : Except Unit Unit
  marshalReq : Except Unit Bytes
  stdoutPipe : Except Unit Unit
  stderrPipe : Except Unit Unit
  startCmd : Except Unit Unit
  procStdout : Bytes
  procStderr : Bytes
  readStdout : Except Unit Unit
  readStderr : Except Unit Unit
  waitResult : Except WaitErr Unit
  cleanup : Except Unit Unit
  writeStdout : Except Unit Unit
deriving DecidableEq, Repr

/-- `spark.Command.Run` (function-runtime-oci) as a function of the
command flags and the world.  Every branch mirrors a return site of the
source.  Two deliberate differences from the xfn-oci generation are kept:
the context passed to `exec.CommandContext` is `context.Background()`
(recorded as a deadline of `some none` once the command is constructed),
and the failure path of `protojson.Marshal` returns without invoking the
bundle Cleanup. -/
def sparkRun (c : SparkCommand) (w : World) : Outcome SparkErr :=
  match w.readStdin with
  | .error _ => ⟨some .readRequest, [], 0, none, none⟩
  | .ok _pb =>
  match w.unmarshalReq with
  | .error _ => ⟨some .unmarshalRequest, [], 0, none, none⟩
  | .ok _req =>
  match selectBundler w.overlaySupported w.newCachingBundler with
  | .error _ => ⟨some .newBundleStore, [], 0, none, none⟩
  | .ok bk =>
  match w.openTarball with
  | .error _ => ⟨some .openTarBall, [], 0, some bk, none⟩
  | .ok _img =>
  match w.bundle with
  | .error _ => ⟨some .bundleFn, [], 0, some bk, none⟩
  | .ok _b =>
  match w.mkdirAll with
  | .error _ => ⟨some .mkRuntimeRootdir, [], 1, some bk, none⟩
  | .ok _ =>
  let dl : Option (Option Nat) := some none
  match w.marshalReq with
  | .error _ => ⟨some .marshalRequest, [], 0, some bk, dl⟩
  | .ok _reqJSON =>
  match w.stdoutPipe with
  | .error _ => ⟨some .stdoutPipe, [], 1, some bk, dl⟩
  | .ok _ =>
  match w.stderrPipe with
  | .error _ => ⟨some .stderrPipe, [], 1, some bk, dl⟩
  | .ok _ =>
  match w.startCmd with
  | .error _ => ⟨some .startCmd, [], 1, some bk, dl⟩
  | .ok _ =>
  match w.readStdout with
  | .error _ => ⟨some .readStdout, [], 1, some bk, dl⟩
  | .ok _ =>
  let stdout := limitReaderIfNonZero w.procStdout c.maxStdioBytes
  match w.readStderr with
  | .error _ => ⟨some .readStderr, [], 1, some bk, dl⟩
  | .ok _ =>
  let stderr := limitReaderIfNonZero w.procStderr c.maxStdioBytes
  match w.waitResult with
  | .error WaitErr.exitError => ⟨some (.waitCmd (some stderr)), [], 1, some bk, dl⟩
  | .error WaitErr.other => ⟨some (.waitCmd none), [], 1, some bk, dl⟩
  | .ok _ =>
  match w.cleanup with
  | .error _ => ⟨some .cleanupBundle, [], 1, some bk, dl⟩
  | .ok _ =>
  match w.writeStdout with
  | .error _ => ⟨some .writeResponse, [], 1, some bk, dl⟩
  | .ok _ => ⟨none, stdout, 1, some bk, dl⟩

end Fro

/-! ## Claims about the stdio limiter, config extraction, and runner -/

/-- Claim C5: for every configured MaxStdioBytes value and every stream, a
zero limit reads the entire stream unbounded, and a positive limit N
delivers exactly the first N bytes of the stream (hence at most N bytes),
the truncation itself raising no error — `limitReaderIfNonZero` is total. -/
theorem limitReader_zero_unbounded_pos_truncates (data : Bytes) (limit : Int) :
    (limit = 0 → limitReaderIfNonZero data limit = data) ∧
    (0 < limit →
      limitReaderIfNonZero data limit = data.take limit.toNat ∧
      (limitReaderIfNonZero data limit).length ≤ limit.toNat) := by
  constructor
  · intro h
    simp [limitReaderIfNonZero, h]
  · intro h
    have hne : limit ≠ 0 := ne_of_gt h
    constructor
    · simp [limitReaderIfNonZero, hne]
    · simp [limitReaderIfNonZero, hne]

/-- Witness for claim C5 at concrete inputs: a zero limit passes a
four-byte stream through whole, a limit of two delivers the first two
bytes. -/
theorem limitReader_zero_unbounded_pos_truncates_witness :
    limitReaderIfNonZero [10, 20, 30, 40] 0 = [10, 20, 30, 40] ∧
    limitReaderIfNonZero [10, 20, 30, 40] 2 = [10, 20] := by
  refine ⟨(limitReader_zero_unbounded_pos_truncates [10, 20, 30, 40] 0).1 rfl, ?_⟩
  have h := ((limitReader_zero_unbounded_pos_truncates [10, 20, 30, 40] 2).2 (by decide)).1
  rw [h]
  decide

/-- Claim C10: for every RunFunctionRequest whose Input field is nil,
`ConfigFromRequest` succeeds with a non-nil pointer to the zero-valued
config, whatever the JSON codecs do. -/
theorem configFromRequest_nil_input_zero_config
    (marshalInput : Bytes → Except Unit Bytes)
    (unmarshalCfg : Bytes → Except Unit RunFunctionRequestConfig)
    (req : Xfn.RunFunctionRequest) (h : req.input = none) :
    Xfn.ConfigFromRequest marshalInput unmarshalCfg req =
      .ok (some zeroRunFunctionRequestConfig) := by
  simp [Xfn.ConfigFromRequest, h]

/-- Witness for claim C10 at a concrete request with nil Input and codecs
that always fail. -/
theorem configFromRequest_nil_input_zero_config_witness :
    Xfn.ConfigFromRequest (fun _ => .error ()) (fun _ => .error ())
      { input := none } = .ok (some zeroRunFunctionRequestConfig) :=
  configFromRequest_nil_input_zero_config (fun _ => .error ())
    (fun _ => .error ()) { input := none } rfl

/-- Claim C9: at startup, the launcher commands select the operator
configured root UID and GID for the function user namespace exactly when
the process holds both CAP_SETUID and CAP_SETGID, and fall back to the
processes own UID and GID (ignoring the configured values) when either
capability is absent; the selection is what `MapToRoot` records on the
runner, together with the `SetUID` flag.  Covers `start.Command.Run` and
`run.Command.Run` of the xfn-oci generation and `start.Command.Run` of the
function-runtime-oci generation. -/
theorem launcher_maps_configured_root_iff_caps (env : Xfn.CapsEnv)
    (sc : Xfn.StartCommand) (rc : Xfn.RunCommand) (fc : Fro.StartCommand)
    (registry defaultImage tarballPath : String) (clean : String → String) :
    ((env.hasCapSetUID && env.hasCapSetGID) = true →
      (Xfn.startRunner sc registry defaultImage clean env).rootUID = sc.mapRootUID ∧
      (Xfn.startRunner sc registry defaultImage clean env).rootGID = sc.mapRootGID ∧
      (Xfn.startRunner sc registry defaultImage clean env).setuid = true ∧
      (Xfn.runCmdRunner rc registry clean env).rootUID = rc.mapRootUID ∧
      (Xfn.runCmdRunner rc registry clean env).rootGID = rc.mapRootGID ∧
      (Xfn.runCmdRunner rc registry clean env).setuid = true ∧
      (Fro.startRunner fc tarballPath env).rootUID = fc.mapRootUID ∧
      (Fro.startRunner fc tarballPath env).rootGID = fc.mapRootGID ∧
      (Fro.startRunner fc tarballPath env).setuid = true) ∧
    ((env.hasCapSetUID && env.hasCapSetGID) = false →
      (Xfn.startRunner sc registry defaultImage clean env).rootUID = env.osUID ∧
      (Xfn.startRunner sc registry defaultImage clean env).rootGID = env.osGID ∧
      (Xfn.startRunner sc registry defaultImage clean env).setuid = false ∧
      (Xfn.runCmdRunner rc registry clean env).rootUID = env.osUID ∧
      (Xfn.runCmdRunner rc registry clean env).rootGID = env.osGID ∧
      (Xfn.runCmdRunner rc registry clean env).setuid = false ∧
      (Fro.startRunner fc tarballPath env).rootUID = env.osUID ∧
      (Fro.startRunner fc tarballPath env).rootGID = env.osGID ∧
      (Fro.startRunner fc tarballPath env).setuid = false) := by
  constructor <;> intro h <;>
    by_cases hd : defaultImage = "" <;>
      simp [Xfn.startRunner, Xfn.runCmdRunner, Fro.startRunner,
        Xfn.NewContainerRunner, Fro.NewRunner, Xfn.SetUID, Fro.SetUID,
        Xfn.MapToRoot, Fro.MapToRoot, Xfn.WithCacheDir, Xfn.WithRegistry,
        Xfn.WithDefaultImage, Fro.WithImageTarBall, h, hd]

/-- Witness for claim C9: with both capabilities held the configured
UID 100000 is selected; the fallback branch is exercised through the
hypothesis of the second conjunct at a capability-free environment. -/
theorem launcher_maps_configured_root_iff_caps_witness :
    (Xfn.startRunner {} "reg" "img" id
        { hasCapSetUID := true, hasCapSetGID := true, osUID := 7, osGID := 8 }).rootUID
      = 100000 ∧
    (Xfn.startRunner {} "reg" "img" id
        { hasCapSetUID := false, hasCapSetGID := true, osUID := 7, osGID := 8 }).rootUID
      = 7 := by
  constructor
  · exact ((launcher_maps_configured_root_iff_caps
      { hasCapSetUID := true, hasCapSetGID := true, osUID := 7, osGID := 8 }
      {} {} {} "reg" "img" "tb" id).1 rfl).1
  · exact ((launcher_maps_configured_root_iff_caps
      { hasCapSetUID := false, hasCapSetGID := true, osUID := 7, osGID := 8 }
      {} {} {} "reg" "img" "tb" id).2 rfl).1

theorem WithCPULimit_preserves_hostNetwork (p : String → Option Nat)
    (l : String) (s r : RSpec) (h : WithCPULimit p l s = .ok r) :
    r.hostNetwork = s.hostNetwork := by
  unfold WithCPULimit at h
  split at h
  · exact absurd h (by simp)
  · cases h
    rfl

theorem WithMemoryLimit_preserves_hostNetwork (p : String → Option Nat)
    (l : String) (s r : RSpec) (h : WithMemoryLimit p l s = .ok r) :
    r.hostNetwork = s.hostNetwork := by
  unfold WithMemoryLimit at h
  split at h
  · exact absurd h (by simp)
  · cases h
    rfl

/-- Claim C6: starting from a spec with the default private network
namespace, the built spec shares the launcher network exactly when the
configured policy equals Runner; the Isolated policy, the unspecified
policy, and a nil resources config all leave the private namespace in
place.  Covers `FromRunFunctionConfig` (xfn-oci) and `FromResourcesConfig`
(function-runtime-oci). -/
theorem host_network_applied_iff_policy_runner :
    (∀ (pc pm : String → Option Nat) (cfg : RunFunctionConfig) (s s' : RSpec),
      s.hostNetwork = false →
      Xfn.FromRunFunctionConfig pc pm cfg s = .ok s' →
      (s'.hostNetwork = true ↔ cfg.networkPolicy = NetworkPolicy.runner)) ∧
    (∀ (pc pm : String → Option Nat) (cfg : Fro.ResourcesConfig) (s s' : RSpec),
      s.hostNetwork = false →
      Fro.FromResourcesConfig pc pm (some cfg) s = .ok s' →
      (s'.hostNetwork = true ↔ cfg.networkPolicy = Fro.NetworkPolicyRunner)) ∧
    (∀ (pc pm : String → Option Nat) (s : RSpec),
      Fro.FromResourcesConfig pc pm none s = .ok s) := by
  refine ⟨?_, ?_, ?_⟩
  · intro pc pm cfg s s' hs h
    unfold Xfn.FromRunFunctionConfig at h
    split at h
    · exact absurd h (by simp)
    · rename_i s1 heq1
      have h1 : s1.hostNetwork = false := by
        split at heq1
        · cases heq1; exact hs
        · exact (WithCPULimit_preserves_hostNetwork _ _ _ _ heq1).trans hs
      split at h
      · exact absurd h (by simp)
      · rename_i s2 heq2
        have h2 : s2.hostNetwork = false := by
          split at heq2
          · cases heq2; exact h1
          · exact (WithMemoryLimit_preserves_hostNetwork _ _ _ _ heq2).trans h1
        split at h
        · exact absurd h (by simp)
        · rename_i s3 heq3
          cases h
          split at heq3
          · rename_i hpol
            unfold WithHostNetwork at heq3
            cases heq3
            simp [hpol]
          · rename_i hpol
            cases heq3
            simp [h2, hpol]
  · intro pc pm cfg s s' hs h
    unfold Fro.FromResourcesConfig at h
    split at h
    · rename_i heq0
      exact absurd heq0 (by simp)
    · rename_i cfg1 heq0
      injection heq0 with hc
      subst hc
      split at h
      · exact absurd h (by simp)
      · rename_i s1 heq1
        have h1 : s1.hostNetwork = false := by
          split at heq1
          · cases heq1; exact hs
          · exact (WithCPULimit_preserves_hostNetwork _ _ _ _ heq1).trans hs
        split at h
        · exact absurd h (by simp)
        · rename_i s2 heq2
          have h2 : s2.hostNetwork = false := by
            split at heq2
            · cases heq2; exact h1
            · exact (WithMemoryLimit_preserves_hostNetwork _ _ _ _ heq2).trans h1
          split at h
          · exact absurd h (by simp)
          · rename_i s3 heq3
            cases h
            split at heq3
            · rename_i hpol
              unfold WithHostNetwork at heq3
              cases heq3
              simp [hpol]
            · rename_i hpol
              cases heq3
              simp [h2, hpol]
  · intro pc pm s
    rfl

/-- Witness for claim C6: applying the theorem at the Runner policy, the
default spec, and trivial parsers shows the host-network flag set on the
built spec. -/
theorem host_network_applied_iff_policy_runner_witness :
    ({ hostNetwork := true } : RSpec).hostNetwork = true ↔
      ({ networkPolicy := NetworkPolicy.runner } : RunFunctionConfig).networkPolicy
        = NetworkPolicy.runner :=
  host_network_applied_iff_policy_runner.1 (fun _ => some 1) (fun _ => some 1)
    { networkPolicy := NetworkPolicy.runner } {} { hostNetwork := true }
    rfl (by decide)

/-! ## Run-level predicates and concrete worlds -/

namespace Xfn

/-- All steps of the xfn-oci spark run before `cmd.Wait` succeeded (and the
run deadline did not expire): the exact success conditions of the match
chain of `sparkRun` up to and including both pipe reads. -/
def preWaitOk (c : SparkCommand) (w : World) : Bool :=
  okB w.readStdin &&
  (match w.unmarshalReq with
   | .ok r => r.input.isSome
   | .error _ => false) &&
  okB w.marshalInput && okB w.unmarshalConf &&
  okB (selectBundler w.overlaySupported w.newCachingBundler) &&
  okB w.newDigest && okB w.parseRef &&
  okB (if c.caBundlePath = "" then Except.ok () else w.parseCA) &&
  okB w.pull && okB w.bundle && okB w.mkdirAll && okB w.marshalReq &&
  okB w.stdoutPipe && okB w.stderrPipe && okB w.startCmd &&
  okB w.readStdout && okB w.readStderr && !w.deadlineExpired

/-- All steps of the xfn-oci spark run before `b.Cleanup` on the success
path succeeded. -/
def priorToCleanupOk (c : SparkCommand) (w : World) : Bool :=
  preWaitOk c w && okB w.waitResult

end Xfn

namespace Fro

/-- All steps of the function-runtime-oci spark run before `cmd.Wait`
succeeded: the exact success conditions of the match chain of `sparkRun`
up to and including both pipe reads. -/
def preWaitOk (w : World) : Bool :=
  okB w.readStdin && okB w.unmarshalReq &&
  okB (selectBundler w.overlaySupported w.newCachingBundler) &&
  okB w.openTarball && okB w.bundle && okB w.mkdirAll && okB w.marshalReq &&
  okB w.stdoutPipe && okB w.stderrPipe && okB w.startCmd &&
  okB w.readStdout && okB w.readStderr

/-- All steps of the function-runtime-oci spark run before `b.Cleanup` on
the success path succeeded. -/
def priorToCleanupOk (w : World) : Bool :=
  preWaitOk w && okB w.waitResult

/-- A default spark command (all flags at their kong defaults). -/
def sparkC0 : SparkCommand := {}

/-- A world in which every step of the function-runtime-oci spark run
succeeds: the external process writes bytes 3 and 4 to stdout and exits
with status zero. -/
def worldOk : World where
  readStdin := .ok [1]
  unmarshalReq := .ok ()
  overlaySupported := false
  newCachingBundler := .ok ()
  openTarball := .ok ()
  bundle := .ok ⟨"/function-runtime-oci-cache/b1"⟩
  mkdirAll := .ok ()
  marshalReq := .ok [2]
  stdoutPipe := .ok ()
  stderrPipe := .ok ()
  startCmd := .ok ()
  procStdout := [3, 4]
  procStderr := []
  readStdout := .ok ()
  readStderr := .ok ()
  waitResult := .ok ()
  cleanup := .ok ()
  writeStdout := .ok ()

/-- Like `worldOk`, except that marshalling the request to JSON fails
after the bundle was created. -/
def worldMarshalFail : World :=
  { worldOk with marshalReq := .error () }

end Fro

/-! ## Claims about the spark pipelines -/

/-- Claim C7: at the start of every run the capability probe of the cache
directory selects the bundling strategy — the overlay-backed bundler
exactly when the overlay filesystem is usable there, the
uncompressed-extraction bundler otherwise — and whichever bundler a run
records is exactly that one-time selection (the outcome carries a single
strategy, used for the single Bundle call of the run, so the selection
cannot change mid-run). -/
theorem bundler_selected_by_overlay_probe :
    (∀ (supported : Bool) (ncb : Except Unit Unit) (k : BKind),
      selectBundler supported ncb = .ok k → (k = BKind.overlay ↔ supported = true)) ∧
    (∀ (registry defaultImage : String) (c : Xfn.SparkCommand) (w : Xfn.World)
        (k : BKind),
      (Xfn.sparkRun registry defaultImage c w).bundler = some k →
      selectBundler w.overlaySupported w.newCachingBundler = .ok k) ∧
    (∀ (c : Fro.SparkCommand) (w : Fro.World) (k : BKind),
      (Fro.sparkRun c w).bundler = some k →
      selectBundler w.overlaySupported w.newCachingBundler = .ok k) := by
  refine ⟨?_, ?_, ?_⟩
  · intro supported ncb k h
    cases supported <;> cases ncb <;> simp_all [selectBundler] <;>
      subst h <;> decide
  · intro registry defaultImage c w k h
    unfold Xfn.sparkRun at h
    repeat' split at h
    all_goals simp_all
  · intro c w k h
    unfold Fro.sparkRun at h
    repeat' split at h
    all_goals simp_all

/-- Witness for claim C7: a successful function-runtime-oci run over a
cache directory without overlay support records the uncompressed
strategy, matching the probe. -/
theorem bundler_selected_by_overlay_probe_witness :
    selectBundler Fro.worldOk.overlaySupported Fro.worldOk.newCachingBundler =
      .ok BKind.uncompressed :=
  bundler_selected_by_overlay_probe.2.2 Fro.sparkC0 Fro.worldOk
    BKind.uncompressed rfl

/-- Claim C4: whenever the external runtime process exits with status zero
and the run returns success, the bytes the run writes to its own standard
output are exactly the bytes the containerized process wrote to its
standard output, unmodified except for the configured stdio byte limit.
Covers both spark generations. -/
theorem zero_exit_response_is_process_stdout :
    (∀ (registry defaultImage : String) (c : Xfn.SparkCommand) (w : Xfn.World),
      w.waitResult = .ok () →
      (Xfn.sparkRun registry defaultImage c w).ret = none →
      (Xfn.sparkRun registry defaultImage c w).written =
        limitReaderIfNonZero w.procStdout c.maxStdioBytes) ∧
    (∀ (c : Fro.SparkCommand) (w : Fro.World),
      w.waitResult = .ok () →
      (Fro.sparkRun c w).ret = none →
      (Fro.sparkRun c w).written =
        limitReaderIfNonZero w.procStdout c.maxStdioBytes) := by
  constructor
  · intro registry defaultImage c w hw h
    unfold Xfn.sparkRun at h ⊢
    repeat' split at h
    all_goals simp_all
  · intro c w hw h
    unfold Fro.sparkRun at h ⊢
    repeat' split at h
    all_goals simp_all

/-- Witness for claim C4: the all-success function-runtime-oci world, whose
process wrote bytes 3 and 4, delivers exactly those bytes. -/
theorem zero_exit_response_is_process_stdout_witness :
    (Fro.sparkRun Fro.sparkC0 Fro.worldOk).written =
      limitReaderIfNonZero Fro.worldOk.procStdout Fro.sparkC0.maxStdioBytes :=
  zero_exit_response_is_process_stdout.2 Fro.sparkC0 Fro.worldOk rfl rfl

/-- Claim C8: when every step up to the wait succeeds and the external
runtime process exits with a non-zero status, the run returns an error —
never a response — and that error carries the bytes captured from the
process standard error stream (as bounded by the stdio limit).  Covers
both spark generations. -/
theorem nonzero_exit_error_carries_stderr :
    (∀ (registry defaultImage : String) (c : Xfn.SparkCommand) (w : Xfn.World),
      Xfn.preWaitOk c w = true →
      w.waitResult = .error WaitErr.exitError →
      (Xfn.sparkRun registry defaultImage c w).ret =
        some (Xfn.SparkErr.runtimeErr
          (some (limitReaderIfNonZero w.procStderr c.maxStdioBytes))) ∧
      (Xfn.sparkRun registry defaultImage c w).written = []) ∧
    (∀ (c : Fro.SparkCommand) (w : Fro.World),
      Fro.preWaitOk w = true →
      w.waitResult = .error WaitErr.exitError →
      (Fro.sparkRun c w).ret =
        some (Fro.SparkErr.waitCmd
          (some (limitReaderIfNonZero w.procStderr c.maxStdioBytes))) ∧
      (Fro.sparkRun c w).written = []) := by
  constructor
  · intro registry defaultImage c w hok hw
    unfold Xfn.preWaitOk at hok
    simp only [Bool.and_eq_true, Bool.not_eq_true', okB_true_iff] at hok
    obtain ⟨⟨⟨⟨⟨⟨⟨⟨⟨⟨⟨⟨⟨⟨⟨⟨⟨h1, h2⟩, h3⟩, h4⟩, h5⟩, h6⟩, h7⟩, h8⟩, h9⟩,
      h10⟩, h11⟩, h12⟩, h13⟩, h14⟩, h15⟩, h16⟩, h17⟩, h18⟩ := hok
    unfold Xfn.sparkRun
    repeat' split
    all_goals simp_all
  · intro c w hok hw
    unfold Fro.preWaitOk at hok
    simp only [Bool.and_eq_true, okB_true_iff] at hok
    obtain ⟨⟨⟨⟨⟨⟨⟨⟨⟨⟨⟨h1, h2⟩, h3⟩, h4⟩, h5⟩, h6⟩, h7⟩, h8⟩, h9⟩, h10⟩,
      h11⟩, h12⟩ := hok
    unfold Fro.sparkRun
    repeat' split
    all_goals simp_all

/-- Claim C3: a run that fails after bundle creation returns the primary
failure and discards whatever the subsequent Cleanup call returns — the
returned error is invariant under the cleanup result — while a cleanup
error reaches the caller only when every prior step of the run succeeded.
Covers both spark generations. -/
theorem cleanup_error_only_after_full_success :
    (∀ (registry defaultImage : String) (c : Xfn.SparkCommand) (w : Xfn.World),
      ((Xfn.sparkRun registry defaultImage c w).ret =
          some Xfn.SparkErr.cleanupBundle →
        Xfn.priorToCleanupOk c w = true) ∧
      (∀ e, (Xfn.sparkRun registry defaultImage c w).ret = some e →
        e ≠ Xfn.SparkErr.cleanupBundle → e ≠ Xfn.SparkErr.writeResponse →
        ∀ cl, (Xfn.sparkRun registry defaultImage c
          { w with cleanup := cl }).ret = some e)) ∧
    (∀ (c : Fro.SparkCommand) (w : Fro.World),
      ((Fro.sparkRun c w).ret = some Fro.SparkErr.cleanupBundle →
        Fro.priorToCleanupOk w = true) ∧
      (∀ e, (Fro.sparkRun c w).ret = some e →
        e ≠ Fro.SparkErr.cleanupBundle → e ≠ Fro.SparkErr.writeResponse →
        ∀ cl, (Fro.sparkRun c { w with cleanup := cl }).ret = some e)) := by
  constructor
  · intro registry defaultImage c w
    constructor
    · intro h
      unfold Xfn.sparkRun at h
      repeat' split at h
      all_goals
        simp_all [Xfn.priorToCleanupOk, Xfn.preWaitOk, okB_true_iff, okB]
    · intro e h hne1 hne2 cl
      unfold Xfn.sparkRun at h ⊢
      repeat' split at h
      all_goals simp_all
  · intro c w
    constructor
    · intro h
      unfold Fro.sparkRun at h
      repeat' split at h
      all_goals
        simp_all [Fro.priorToCleanupOk, Fro.preWaitOk, okB_true_iff, okB]
    · intro e h hne1 hne2 cl
      unfold Fro.sparkRun at h ⊢
      repeat' split at h
      all_goals simp_all

/-- A world in which every step of the function-runtime-oci spark run
succeeds except the final bundle cleanup. -/
def Fro.worldCleanupFail : Fro.World :=
  { Fro.worldOk with cleanup := .error () }

/-- Witness for claim C3: a function-runtime-oci run failing only at
cleanup reports the cleanup error, so the theorem yields that every prior
step succeeded. -/
theorem cleanup_error_only_after_full_success_witness :
    Fro.priorToCleanupOk Fro.worldCleanupFail = true :=
  (cleanup_error_only_after_full_success.2 Fro.sparkC0 Fro.worldCleanupFail).1 rfl

/-! ## Deadlines -/

/-- Claim C2 (amended): whenever the xfn-oci spark run reaches the point of
executing the external OCI runtime process, the context it executes under
carries a deadline equal to the timeout of the request run-function config,
or the fixed 25 second default when that field is zero; when the deadline
expires the process is killed and the run returns an error, never a
response.  The function-runtime-oci spark run instead always executes the
process under a background context carrying no deadline. -/
theorem process_deadline_request_timeout_or_default :
    (∀ (registry defaultImage : String) (c : Xfn.SparkCommand) (w : Xfn.World)
        (conf : RunFunctionRequestConfig) (d : Option Nat),
      w.unmarshalConf = .ok conf →
      (Xfn.sparkRun registry defaultImage c w).procDeadline = some d →
      d = some (effectiveTimeout conf.spec.runFunctionConfig.timeoutNs)) ∧
    (∀ (registry defaultImage : String) (c : Xfn.SparkCommand) (w : Xfn.World),
      w.deadlineExpired = true →
      (Xfn.sparkRun registry defaultImage c w).ret.isSome = true ∧
      (Xfn.sparkRun registry defaultImage c w).written = []) ∧
    (∀ (c : Fro.SparkCommand) (w : Fro.World) (d : Option Nat),
      (Fro.sparkRun c w).procDeadline = some d → d = none) := by
  refine ⟨?_, ?_, ?_⟩
  · intro registry defaultImage c w conf d hconf h
    unfold Xfn.sparkRun at h
    repeat' split at h
    all_goals simp_all
  · intro registry defaultImage c w hde
    unfold Xfn.sparkRun
    repeat' split
    all_goals simp_all
  · intro c w d h
    unfold Fro.sparkRun at h
    repeat' split at h
    all_goals simp_all

namespace Xfn

/-- A default xfn-oci spark command (all flags at their kong defaults). -/
def sparkC0 : SparkCommand := {}

/-- A request carrying an Input object. -/
def req0 : RunFunctionRequest := { input := some [9] }

/-- A request config with every field at its zero value: no timeout, no
image, no limits, unspecified network policy. -/
def conf0 : RunFunctionRequestConfig := {}

/-- A world in which every step of the xfn-oci spark run succeeds: the
external process writes bytes 3 and 4 to stdout, byte 7 to stderr, and
exits with status zero. -/
def worldOk : World where
  readStdin := .ok [1]
  unmarshalReq := .ok req0
  marshalInput := .ok [5]
  unmarshalConf := .ok conf0
  overlaySupported := true
  newCachingBundler := .ok ()
  newDigest := .ok ()
  parseRef := .ok ()
  parseCA := .ok ()
  pull := .ok ()
  bundle := .ok ⟨"/xfn/b1"⟩
  mkdirAll := .ok ()
  marshalReq := .ok [2]
  stdoutPipe := .ok ()
  stderrPipe := .ok ()
  startCmd := .ok ()
  deadlineExpired := false
  procStdout := [3, 4]
  procStderr := [7]
  readStdout := .ok ()
  readStderr := .ok ()
  waitResult := .ok ()
  cleanup := .ok ()
  writeStdout := .ok ()

end Xfn

/-- Witness for the amended claim C2: the all-success xfn-oci run with a
zero request timeout executed its process under the 25 second default
deadline. -/
theorem process_deadline_request_timeout_or_default_witness :
    (some defaultTimeout : Option Nat) =
      some (effectiveTimeout Xfn.conf0.spec.runFunctionConfig.timeoutNs) :=
  process_deadline_request_timeout_or_default.1 "reg" "img" Xfn.sparkC0
    Xfn.worldOk Xfn.conf0 (some defaultTimeout) rfl rfl

/-- Counterexample to claim C2 as stated: a fully successful
function-runtime-oci spark run — the external process executed and the run
returned its response — whose process ran under a context with no deadline
at all (`context.Background()`), not under a deadline equal to a request
timeout or a fixed default. -/
theorem fro_process_executes_without_deadline :
    (Fro.sparkRun Fro.sparkC0 Fro.worldOk).ret = none ∧
    (Fro.sparkRun Fro.sparkC0 Fro.worldOk).procDeadline = some none :=
  ⟨rfl, rfl⟩

/-! ## Bundle cleanup -/

/-- Claim C1, evaluated at the failing input: in the function-runtime-oci
spark run, when the bundle store has successfully returned a bundle and the
subsequent `protojson.Marshal` of the request fails, the run returns the
marshal error without ever invoking the bundle Cleanup — the cleanup count
is 0, not 1 as the claim requires. -/
theorem fro_marshal_failure_skips_cleanup :
    okB Fro.worldMarshalFail.bundle = true ∧
    (Fro.sparkRun Fro.sparkC0 Fro.worldMarshalFail).ret =
      some Fro.SparkErr.marshalRequest ∧
    (Fro.sparkRun Fro.sparkC0 Fro.worldMarshalFail).cleanupCount = 0 :=
  ⟨rfl, rfl, rfl⟩

/-- Success of every xfn-oci spark step before the Bundle call. -/
def Xfn.preBundleOk (c : Xfn.SparkCommand) (w : Xfn.World) : Bool :=
  okB w.readStdin &&
  (match w.unmarshalReq with
   | .ok r => r.input.isSome
   | .error _ => false) &&
  okB w.marshalInput && okB w.unmarshalConf &&
  okB (selectBundler w.overlaySupported w.newCachingBundler) &&
  okB w.newDigest && okB w.parseRef &&
  okB (if c.caBundlePath = "" then Except.ok () else w.parseCA) &&
  okB w.pull

/-- Success of every function-runtime-oci spark step before the Bundle
call. -/
def Fro.preBundleOk (w : Fro.World) : Bool :=
  okB w.readStdin && okB w.unmarshalReq &&
  okB (selectBundler w.overlaySupported w.newCachingBundler) &&
  okB w.openTarball

/-- Supporting invariant: the xfn-oci spark run invokes the bundle Cleanup
exactly once on every run in which the bundle store successfully returned a
bundle, whatever later steps do — including failures of the runtime root
directory creation, request marshalling, pipe setup, process start, pipe
reads, wait, and the success path. -/
theorem xfn_cleanup_exactly_once_after_bundle
    (registry defaultImage : String) (c : Xfn.SparkCommand) (w : Xfn.World)
    (hpre : Xfn.preBundleOk c w = true) (hb : okB w.bundle = true) :
    (Xfn.sparkRun registry defaultImage c w).cleanupCount = 1 := by
  unfold Xfn.preBundleOk at hpre
  simp only [Bool.and_eq_true, okB_true_iff] at hpre hb
  obtain ⟨⟨⟨⟨⟨⟨⟨⟨h1, h2⟩, h3⟩, h4⟩, h5⟩, h6⟩, h7⟩, h8⟩, h9⟩ := hpre
  unfold Xfn.sparkRun
  repeat' split
  all_goals simp_all

/-- Supporting witness: the invariant applies to the all-success xfn-oci
world. -/
theorem xfn_cleanup_exactly_once_after_bundle_witness :
    (Xfn.sparkRun "reg" "img" Xfn.sparkC0 Xfn.worldOk).cleanupCount = 1 :=
  xfn_cleanup_exactly_once_after_bundle "reg" "img" Xfn.sparkC0 Xfn.worldOk
    rfl rfl

/-- Supporting invariant: the function-runtime-oci spark run invokes the
bundle Cleanup exactly once after a successful Bundle call on every path
except the request-marshal failure, where it invokes it zero times. -/
theorem fro_cleanup_once_except_marshal_failure
    (c : Fro.SparkCommand) (w : Fro.World)
    (hpre : Fro.preBundleOk w = true) (hb : okB w.bundle = true) :
    (Fro.sparkRun c w).cleanupCount =
      (if okB w.mkdirAll && !(okB w.marshalReq) then 0 else 1) := by
  unfold Fro.preBundleOk at hpre
  simp only [Bool.and_eq_true, okB_true_iff] at hpre hb
  obtain ⟨⟨⟨h1, h2⟩, h3⟩, h4⟩ := hpre
  unfold Fro.sparkRun
  repeat' split
  all_goals simp_all [okB]

/-- Supporting witness: on the marshal-failure world the count is zero. -/
theorem fro_cleanup_once_except_marshal_failure_witness :
    (Fro.sparkRun Fro.sparkC0 Fro.worldMarshalFail).cleanupCount =
      (if okB Fro.worldMarshalFail.mkdirAll &&
          !(okB Fro.worldMarshalFail.marshalReq) then 0 else 1) :=
  fro_cleanup_once_except_marshal_failure Fro.sparkC0 Fro.worldMarshalFail
    rfl rfl

/-- Like `Fro.worldOk`, except the external process exits with a non-zero
status after writing bytes 7 and 8 to stderr. -/
def Fro.worldExitNonZero : Fro.World :=
  { Fro.worldOk with
    waitResult := Except.error WaitErr.exitError
    procStderr := [7, 8] }

/-- Witness for claim C8: a function-runtime-oci run whose process exits
non-zero returns the wait error carrying the captured stderr bytes and
writes no response. -/
theorem nonzero_exit_error_carries_stderr_witness :
    (Fro.sparkRun Fro.sparkC0 Fro.worldExitNonZero).ret =
      some (Fro.SparkErr.waitCmd
        (some (limitReaderIfNonZero Fro.worldExitNonZero.procStderr
          Fro.sparkC0.maxStdioBytes))) ∧
    (Fro.sparkRun Fro.sparkC0 Fro.worldExitNonZero).written = [] :=
  nonzero_exit_error_carries_stderr.2 Fro.sparkC0 Fro.worldExitNonZero rfl rfl
